import Mathlib

/-!
Verification development for the nmac declarative-macro pattern engine
(`include/nmac/nmac.hpp`, `include/nmac/macro_expander.hpp`).

The pattern AST, the pattern parser (`PatternParser`), the pattern matcher
(`PatternMatcher`) and the rule dispatcher (`nmac::macro::Expander`) are
embedded shallowly.  Token sequences are lists of strings, matching the
instantiation `PatternMatcher<std::vector<std::string>>` used by the
repository's tests, for which `get_token_content` is the identity.

Both the parser's main loop and the matcher's repetition loop can fail to
terminate in the C++ source, so every recursive walk below is instrumented
with explicit fuel: a result of `none` means the fuel ran out, and a run
that returns `none` for every fuel diverges.  Every recursive call strictly
decreases the fuel, so an actual C++ execution that performs k steps is
reproduced exactly by any fuel larger than k.
-/

/-- The node-kind enum of `nmac::PatternNode::Type`. -/
inductive NType where
  | LITERAL
  | VARIABLE
  | SEQUENCE
  | OPTIONAL
  | REPETITION
  | OPERATOR
deriving DecidableEq, Repr

/-- `nmac::PatternNode`: a kind tag, a content string (for literals,
variables, operators and repetition operators), a child list and the
source position used for error reporting. -/
inductive PatternNode where
  | mk (ty : NType) (content : String) (children : List PatternNode)
       (source_position : Nat)

/-- Projection of the node kind. -/
def PatternNode.ty : PatternNode → NType
  | .mk t _ _ _ => t

/-- Projection of the node content. -/
def PatternNode.content : PatternNode → String
  | .mk _ c _ _ => c

/-- Projection of the child list. -/
def PatternNode.children : PatternNode → List PatternNode
  | .mk _ _ ch _ => ch

/-- Projection of the recorded source position. -/
def PatternNode.source_position : PatternNode → Nat
  | .mk _ _ _ p => p

/-- Mutable state of one `PatternMatcher` run: the input cursor
(`input_pos`, threaded by reference in the C++), the capture list and the
`error_message` / `error_position` fields of the matcher object. -/
structure MState where
  pos : Nat
  caps : List (String × String)
  errMsg : String
  errPos : Nat
deriving DecidableEq, Repr

/-- `PatternMatcher::set_error`. -/
def mset_error (st : MState) (msg : String) (p : Nat) : MState :=
  { st with errMsg := msg, errPos := p }

/-- Content of the token at index `i` (the tokens are plain strings, so
`get_token_content` is the identity); out-of-range access never happens on
the guarded paths. -/
def tokContent (toks : List String) (i : Nat) : String :=
  toks.getD i ""

/-- The fresh matcher state at the start of `PatternMatcher::match`. -/
def initMState : MState := { pos := 0, caps := [], errMsg := "", errPos := 0 }

mutual

/-- `PatternMatcher::match_node`, with fuel.  The `LITERAL`, `VARIABLE` and
`OPERATOR` cases inline `match_literal`, `match_variable` and
`match_operator`; the composite cases delegate to the loop functions
below. -/
def match_node : Nat → PatternNode → List String → MState → Option (Bool × MState)
  | 0, _, _, _ => none
  | f + 1, PatternNode.mk ty content children spos, toks, st =>
    match ty with
    | NType.LITERAL =>
      if st.pos < toks.length then
        if tokContent toks st.pos = content then
          some (true, { st with pos := st.pos + 1 })
        else
          some (false, mset_error st
            ("Expected literal \x27" ++ content ++ "\x27, got \x27"
              ++ tokContent toks st.pos ++ "\x27") spos)
      else
        some (false, mset_error st "Unexpected end of input while matching literal" spos)
    | NType.VARIABLE =>
      if st.pos < toks.length then
        some (true, { st with pos := st.pos + 1,
                              caps := st.caps ++ [(content, tokContent toks st.pos)] })
      else
        some (false, mset_error st "Unexpected end of input while matching variable" spos)
    | NType.SEQUENCE => match_children f st.pos children toks st
    | NType.OPTIONAL => match_opt_children f st.pos children toks st
    | NType.REPETITION =>
      match children with
      | [] => some (false, mset_error st "Repetition with no child pattern" spos)
      | child :: _ =>
        let op := content.toList.headD (Char.ofNat 0)
        match rep_loop f child toks st 0 with
        | none => none
        | some (k, st') =>
          if op = '*' then some (true, st')
          else if op = '+' then
            if k = 0 then
              some (false, mset_error st'
                "Expected one or more matches for \x27+\x27 repetition" spos)
            else some (true, st')
          else if op = '?' then
            if k > 1 then
              some (false, mset_error st'
                "Expected zero or one match for \x27?\x27 repetition, got multiple" spos)
            else some (true, st')
          else
            some (false, mset_error st' ("Unknown repetition operator: " ++ content) spos)
    | NType.OPERATOR =>
      if st.pos < toks.length then
        if tokContent toks st.pos = content then
          some (true, { st with pos := st.pos + 1 })
        else
          some (false, mset_error st
            ("Expected operator \x27" ++ content ++ "\x27, got \x27"
              ++ tokContent toks st.pos ++ "\x27") spos)
      else
        some (false, mset_error st "Unexpected end of input while matching operator" spos)

/-- The child loop of `PatternMatcher::match_sequence`: `saved` is the
input position saved at entry; on a child failure the input position is
restored (the captures and the error state are not). -/
def match_children : Nat → Nat → List PatternNode → List String → MState →
    Option (Bool × MState)
  | 0, _, _, _, _ => none
  | _ + 1, _, [], _, st => some (true, st)
  | f + 1, saved, c :: cs, toks, st =>
    match match_node f c toks st with
    | none => none
    | some (false, st') => some (false, { st' with pos := saved })
    | some (true, st') => match_children f saved cs toks st'

/-- The child loop of `PatternMatcher::match_optional`: on a child failure
the input position is restored and `error_message` is cleared
(`error_position` is left as the failing child set it), and the node
succeeds. -/
def match_opt_children : Nat → Nat → List PatternNode → List String → MState →
    Option (Bool × MState)
  | 0, _, _, _, _ => none
  | _ + 1, _, [], _, st => some (true, st)
  | f + 1, saved, c :: cs, toks, st =>
    match match_node f c toks st with
    | none => none
    | some (false, st') => some (true, { st' with pos := saved, errMsg := "" })
    | some (true, st') => match_opt_children f saved cs toks st'

/-- The greedy loop of `PatternMatcher::match_repetition`: repeat the child
while the input is not exhausted, counting iterations in `k`; when the
child fails, restore the input position to the start of the iteration and
the error message (not the error position) to its value at the start of
the iteration, and stop. -/
def rep_loop : Nat → PatternNode → List String → MState → Nat → Option (Nat × MState)
  | 0, _, _, _, _ => none
  | f + 1, child, toks, st, k =>
    if st.pos < toks.length then
      match match_node f child toks st with
      | none => none
      | some (false, st') => some (k, { st' with pos := st.pos, errMsg := st.errMsg })
      | some (true, st') => rep_loop f child toks st' (k + 1)
    else
      some (k, st)

end

/-- `PatternMatcher::match`: run `match_node` on the whole pattern from
input position `0` with an empty capture list.  The result carries the
final matcher state, whose `caps` field is what `get_captures` exposes;
the C++ `match` itself returns only the boolean. -/
def pmatch (f : Nat) (pat : PatternNode) (toks : List String) : Option (Bool × MState) :=
  match_node f pat toks initMState

/-! ## The pattern parser (`nmac::PatternParser`) -/

/-- Parser state: the pattern text as a character list, the cursor `pos`
and the `error_message` / `error_position` fields. -/
structure PState where
  pat : List Char
  pos : Nat
  errMsg : String
  errPos : Nat
deriving DecidableEq, Repr

/-- Character at index `i`, with the C++ out-of-range convention of
returning the NUL character (as `peek` and `peek_ahead` do). -/
def nthc (l : List Char) (i : Nat) : Char :=
  l.getD i (Char.ofNat 0)

/-- `PatternParser::peek`. -/
def peek (st : PState) : Char :=
  nthc st.pat st.pos

/-- The cursor movement of `PatternParser::advance`: increment only while
in range. -/
def padvance (st : PState) : PState :=
  if st.pos < st.pat.length then { st with pos := st.pos + 1 } else st

/-- `PatternParser::set_error`: record the message and the current
position. -/
def pset_error (st : PState) (msg : String) : PState :=
  { st with errMsg := msg, errPos := st.pos }

/-- `std::isspace` on the default C locale (ASCII whitespace). -/
def is_space (c : Char) : Bool :=
  c = ' ' || c = '\t' || c = '\n' || c = '\x0b' || c = '\x0c' || c = '\r'

/-- `std::isalnum` on the default C locale. -/
def is_alnum (c : Char) : Bool :=
  ('0' ≤ c && c ≤ '9') || ('A' ≤ c && c ≤ 'Z') || ('a' ≤ c && c ≤ 'z')

/-- `PatternParser::is_operator`. -/
def is_operator (c : Char) : Bool :=
  c = '+' || c = '-' || c = '*' || c = '/' || c = '='

/-- `PatternParser::is_repetition_operator`. -/
def is_repetition_operator (c : Char) : Bool :=
  c = '*' || c = '+' || c = '?'

/-- Length of the longest prefix on which `pred` holds (structural form of
the bounded scan loops of the parser: a scan from position `p` stops at
`p + count_while pred (l.drop p)`, which is the same index the C++
`while (pos < pattern.size() && pred(pattern[pos])) pos++` loops reach). -/
def count_while (pred : Char → Bool) : List Char → Nat
  | [] => 0
  | c :: cs => if pred c then count_while pred cs + 1 else 0

/-- First index at or after `p` holding a non-whitespace character (the
loop of `PatternParser::skip_whitespace`). -/
def skip_end (l : List Char) (p : Nat) : Nat :=
  p + count_while is_space (l.drop p)

/-- `PatternParser::skip_whitespace`. -/
def skip_whitespace (st : PState) : PState :=
  { st with pos := skip_end st.pat st.pos }

/-- End of the identifier scan of `PatternParser::parse_variable`. -/
def var_end (l : List Char) (p : Nat) : Nat :=
  p + count_while (fun c => is_alnum c || c = '_') (l.drop p)

/-- The stop condition of the scan in `PatternParser::parse_literal`. -/
def lit_stop (c : Char) : Bool :=
  is_space c || c = '$' || c = '(' || c = ')' || c = '[' || c = ']' ||
    c = '\\' || is_operator c || c = '?' || c = ','

/-- End of the scan of `PatternParser::parse_literal`. -/
def lit_end (l : List Char) (p : Nat) : Nat :=
  p + count_while (fun c => !lit_stop c) (l.drop p)

/-- `PatternParser::parse_variable`: scan an identifier; on an empty name
record the error and return a `VARIABLE` node with empty content.  The
caller overwrites the node's `source_position` with the position of the
`$`. -/
def parse_variable (st : PState) : PatternNode × PState :=
  let s := st.pos
  let e := var_end st.pat st.pos
  let st' : PState := { st with pos := e }
  if s = e then
    (PatternNode.mk NType.VARIABLE "" [] s, pset_error st' "Empty variable name")
  else
    (PatternNode.mk NType.VARIABLE (String.mk ((st.pat.drop s).take (e - s))) [] s, st')

/-- `PatternParser::parse_literal`. -/
def parse_literal (st : PState) : PatternNode × PState :=
  let s := st.pos
  let e := lit_end st.pat st.pos
  (PatternNode.mk NType.LITERAL (String.mk ((st.pat.drop s).take (e - s))) [] s,
    { st with pos := e })

/-- Rebuild a node with an overridden `source_position` (the assignments
`var.source_position = var_pos` and `group.source_position = group_pos`
in `parse_sequence`). -/
def with_pos : PatternNode → Nat → PatternNode
  | .mk t c ch _, p => .mk t c ch p

/-- The main loop of `PatternParser::parse_sequence`, with fuel.  `acc` is
the accumulated child list of the sequence node under construction.  The
branches mirror the C++ `if` chain: variable, escape, operator (with the
quantifier disambiguation and `handle_repetition`), group, optional,
literal, stray whitespace.  A group recursively parses an inner sequence
with the same fuel budget. -/
def parse_seq_loop : Nat → PState → List PatternNode → Option (List PatternNode × PState)
  | 0, _, _ => none
  | f + 1, st, acc =>
    if st.pos < st.pat.length ∧ peek st ≠ ')' ∧ peek st ≠ '}' ∧ peek st ≠ ']' then
      let st1 := skip_whitespace st
      if st1.pat.length ≤ st1.pos then some (acc, st1)
      else if peek st1 = '$' then
        let varPos := st1.pos
        let st2 := padvance st1
        let v := parse_variable st2
        parse_seq_loop f v.2 (acc ++ [with_pos v.1 varPos])
      else if peek st1 = '\\' then
        let st2 := padvance st1
        if st2.pat.length ≤ st2.pos then
          some (acc, pset_error st2 "Unexpected end of pattern after escape character")
        else
          let c := peek st2
          let st3 := padvance st2
          parse_seq_loop f st3
            (acc ++ [PatternNode.mk NType.LITERAL (String.mk [c]) [] (st3.pos - 2)])
      else if is_operator (peek st1) then
        let c := peek st1
        let is_binary_op :=
          !(is_repetition_operator c && !acc.isEmpty && decide (0 < st1.pos)
              && !is_space (nthc st1.pat (st1.pos - 1)))
        if is_binary_op then
          let opPos := st1.pos
          let st2 := padvance st1
          parse_seq_loop f st2 (acc ++ [PatternNode.mk NType.OPERATOR (String.mk [c]) [] opPos])
        else
          match acc.getLast? with
          | none =>
            parse_seq_loop f (pset_error st1 "Repetition operator without preceding element") acc
          | some lastn =>
            let repPos := st1.pos
            let st2 := padvance st1
            parse_seq_loop f st2
              (acc.dropLast ++ [PatternNode.mk NType.REPETITION (String.mk [c]) [lastn] repPos])
      else if peek st1 = '(' then
        let groupPos := st1.pos
        let st2 := padvance st1
        match parse_seq_loop f st2 [] with
        | none => none
        | some (children, st3) =>
          let group := PatternNode.mk NType.SEQUENCE "" children groupPos
          let st4 := if peek st3 = ')' then padvance st3
                     else pset_error st3 "Unclosed group: missing \x27)\x27"
          parse_seq_loop f st4 (acc ++ [group])
      else if peek st1 = '[' then
        let optPos := st1.pos
        let st2 := padvance st1
        let innerPos := st2.pos
        match parse_seq_loop f st2 [] with
        | none => none
        | some (children, st3) =>
          let inner := PatternNode.mk NType.SEQUENCE "" children innerPos
          let opt := PatternNode.mk NType.OPTIONAL "" [inner] optPos
          let st4 := if peek st3 = ']' then padvance st3
                     else pset_error st3 "Unclosed optional group: missing \x27]\x27"
          parse_seq_loop f st4 (acc ++ [opt])
      else if !(is_space (peek st1)) then
        let r := parse_literal st1
        if r.1.content = "" then parse_seq_loop f r.2 acc
        else parse_seq_loop f r.2 (acc ++ [r.1])
      else
        parse_seq_loop f (padvance st1) acc
    else
      some (acc, st)

/-- `PatternParser::parse` on a pattern text: skip leading whitespace, run
`parse_sequence` (building the root `SEQUENCE` node at the post-whitespace
position), then flag trailing characters.  `none` means the parser did not
terminate within the fuel. -/
def parse (f : Nat) (text : String) : Option (PatternNode × PState) :=
  let st0 : PState := { pat := text.toList, pos := 0, errMsg := "", errPos := 0 }
  let st1 := skip_whitespace st0
  match parse_seq_loop f st1 [] with
  | none => none
  | some (children, st2) =>
    let root := PatternNode.mk NType.SEQUENCE "" children st1.pos
    let st3 := skip_whitespace st2
    let st4 := if st3.pos < st3.pat.length then
                 pset_error st3 "Unexpected characters at end of pattern"
               else st3
    some (root, st4)

/-! ## Rules and the dispatcher (`nmac::MacroRule`, `nmac::macro::Expander`) -/

/-- `nmac::MacroRule::parse_pattern`: parse the rule's pattern text and
return only the AST.  The parser's error state is discarded — the C++
constructs a local `PatternParser`, calls `parse()` and returns the node,
never reading `has_error`. -/
def rule_parse_pattern (f : Nat) (text : String) : Option PatternNode :=
  (parse f text).map (fun p => p.1)

/-- A dispatcher rule: a pattern text plus a generator.  The generator
receives the input token sequence and the matcher's captures, as in
`Rule::generator::expand(input, matcher.get_captures())`. -/
structure MacRule (α : Type) where
  pat : String
  gen : List String → List (String × String) → α

/-- One rule attempt inside `Expander::try_match_rule`: parse the rule's
pattern, run a fresh matcher on the input, and on success invoke the
generator with the captures.  `some none` means the matcher returned
false, `some (some v)` means the rule fired with value `v`, `none` means
the parse or the match ran out of fuel (diverged). -/
def rule_attempt {α : Type} (f : Nat) (r : MacRule α) (input : List String) :
    Option (Option α) :=
  match rule_parse_pattern f r.pat with
  | none => none
  | some nd =>
    match pmatch f nd input with
    | none => none
    | some (ok, mst) =>
      if ok then some (some (r.gen input mst.caps)) else some none

/-- `Expander::try_match_rule`, folded over the rule list in declaration
order.  When the rule list is exhausted the C++ throws
`std::runtime_error("No matching macro rule found")`; the embedding
returns that exception as `Except.error`. -/
def try_match_rule {α : Type} (f : Nat) (rules : List (MacRule α)) (input : List String) :
    Option (Except String α) :=
  match rules with
  | [] => some (Except.error "No matching macro rule found")
  | r :: rest =>
    match rule_attempt f r input with
    | none => none
    | some (some v) => some (Except.ok v)
    | some none => try_match_rule f rest input

/-- `Expander::expand`: a `try` around `try_match_rule` whose `catch`
clause rethrows the exception unchanged, so the value (including a
propagated exception, modelled as `Except.error`) is exactly that of
`try_match_rule`. -/
def expand {α : Type} (f : Nat) (rules : List (MacRule α)) (input : List String) :
    Option (Except String α) :=
  try_match_rule f rules input

/-- `Expander::try_expand`: catch any exception from `try_match_rule` and
turn it into `std::nullopt`. -/
def try_expand {α : Type} (f : Nat) (rules : List (MacRule α)) (input : List String) :
    Option (Option α) :=
  (try_match_rule f rules input).map (fun e =>
    match e with
    | Except.ok v => some v
    | Except.error _ => none)

/-! ## Theorems -/

/-- The character list of the one-character string `"*"`. -/
lemma star_toList : ("*" : String).toList = ['*'] := rfl

/-- The character list of the one-character string `"+"`. -/
lemma plus_toList : ("+" : String).toList = ['+'] := rfl

/-- The character list of the one-character string `"?"`. -/
lemma quest_toList : ("?" : String).toList = ['?'] := rfl

/-- The greedy repetition loop on a `VARIABLE` child consumes the whole
remaining input, one token and one capture per iteration, and stops
cleanly when the input is exhausted (fuel `remaining + 1` suffices). -/
lemma rep_loop_var (x : String) (toks : List String) : ∀ (rem : Nat) (k : Nat) (st : MState),
    st.pos + rem = toks.length →
    rep_loop (rem + 1) (PatternNode.mk NType.VARIABLE x [] 0) toks st k
      = some (k + rem, { pos := toks.length,
                         caps := st.caps ++ (toks.drop st.pos).map (fun t => (x, t)),
                         errMsg := st.errMsg, errPos := st.errPos }) := by
  intro rem
  induction rem with
  | zero =>
    intro k st h
    have hnc : ¬ st.pos < toks.length := by omega
    have hd : toks.drop st.pos = [] := by
      rw [show st.pos = toks.length by omega]
      exact List.drop_length toks
    simp [rep_loop, hnc, hd]
    cases st with
    | mk pos caps errMsg errPos => simp_all
  | succ rem ih =>
    intro k st h
    have hc : st.pos < toks.length := by omega
    have hstep : match_node (rem + 1) (PatternNode.mk NType.VARIABLE x [] 0) toks st
        = some (true, { st with pos := st.pos + 1,
                                caps := st.caps ++ [(x, tokContent toks st.pos)] }) := by
      simp [match_node, hc]
    have hrec := ih (k + 1)
        { st with pos := st.pos + 1, caps := st.caps ++ [(x, tokContent toks st.pos)] }
        (by simp; omega)
    simp only at hrec
    have hunf : rep_loop (rem + 1 + 1) (PatternNode.mk NType.VARIABLE x [] 0) toks st k
        = if st.pos < toks.length then
            match match_node (rem + 1) (PatternNode.mk NType.VARIABLE x [] 0) toks st with
            | none => none
            | some (false, st') => some (k, { st' with pos := st.pos, errMsg := st.errMsg })
            | some (true, st') =>
              rep_loop (rem + 1) (PatternNode.mk NType.VARIABLE x [] 0) toks st' (k + 1)
          else some (k, st) := rfl
    rw [hunf, if_pos hc, hstep]
    refine Eq.trans hrec ?_
    have hgd : tokContent toks st.pos = toks[st.pos] := List.getD_eq_getElem toks "" hc
    have hdc : List.drop st.pos toks = toks[st.pos] :: List.drop (st.pos + 1) toks :=
      List.drop_eq_getElem_cons hc
    simp only [Option.some.injEq, Prod.mk.injEq]
    constructor
    · omega
    · rw [List.append_assoc, hdc]
      simp only [List.map_cons, List.singleton_append, hgd]

/-- The greedy repetition loop never returns when its child is an empty
sequence and input remains: the child succeeds without consuming a token,
so the loop state never changes (the C++ `while` in `match_repetition`
spins forever). -/
lemma rep_loop_empty_seq_none : ∀ (f k : Nat),
    rep_loop f (PatternNode.mk NType.SEQUENCE "" [] 0) ["a"] initMState k = none := by
  intro f
  induction f with
  | zero => intro k; rfl
  | succ f ih =>
    intro k
    cases f with
    | zero => rfl
    | succ g =>
      cases g with
      | zero => rfl
      | succ h => exact ih (k + 1)

/-- The parser loop never returns from the state just before an
unquantifiable `?`: `is_operator` does not recognise `?`, so the `?` falls
through to `parse_literal`, which stops immediately and produces an empty
literal that is discarded without advancing the cursor. -/
lemma seq_loop_stuck_aq : ∀ (f : Nat) (acc : List PatternNode),
    parse_seq_loop f { pat := ['a', '?'], pos := 1, errMsg := "", errPos := 0 } acc = none := by
  intro f
  induction f with
  | zero => intro acc; rfl
  | succ f ih => intro acc; exact ih acc

/-- Same loop, stuck on the pattern text `"?"` at position `0`. -/
lemma seq_loop_stuck_q : ∀ (f : Nat) (acc : List PatternNode),
    parse_seq_loop f { pat := ['?'], pos := 0, errMsg := "", errPos := 0 } acc = none := by
  intro f
  induction f with
  | zero => intro acc; rfl
  | succ f ih => intro acc; exact ih acc

/-- `parse` runs out of fuel exactly when its sequence loop does. -/
lemma parse_none_iff (f : Nat) (text : String) :
    parse f text = none ↔
      parse_seq_loop f (skip_whitespace { pat := text.data, pos := 0, errMsg := "", errPos := 0 })
        [] = none := by
  unfold parse
  cases h : parse_seq_loop f
      (skip_whitespace { pat := text.data, pos := 0, errMsg := "", errPos := 0 }) [] with
  | none => simp [h]
  | some r => simp [h]

/-- C1, counterexample.  `PatternMatcher::match` returns the bare result of
`match_node` and never compares the final input index with the token
count: the empty pattern (a `SEQUENCE` with no children, which is what
parsing `""` yields) matches the non-empty token sequence `["a"]`,
succeeding with final input index `0` while the token count is `1`.  This
refutes both the "total match" rule and "the empty pattern matches exactly
the empty token sequence". -/
theorem c1_counterexample :
    pmatch 2 (PatternNode.mk NType.SEQUENCE "" [] 0) ["a"]
      = some (true, { pos := 0, caps := [], errMsg := "", errPos := 0 })
    ∧ (0 : Nat) ≠ (["a"] : List String).length :=
  ⟨rfl, by decide⟩

/-- C1, amended.  `PatternMatcher::match` reports success exactly when the
pattern node matches starting at index 0, with no requirement that the
entire token sequence be consumed; in particular the empty pattern matches
every token sequence, consuming no tokens and recording no captures. -/
theorem c1_empty_pattern_matches_any (toks : List String) :
    pmatch 2 (PatternNode.mk NType.SEQUENCE "" [] 0) toks
      = some (true, { pos := 0, caps := [], errMsg := "", errPos := 0 }) :=
  rfl

/-- C2, code evaluated at the failing input.  Rollback does not restore the
capture list: matching `Sequence [Variable "x", Literal "q"]` against
`["b"]` fails (the literal runs out of input) yet the capture `("x","b")`
recorded by the abandoned sub-match stays in the final capture list; and
matching `Sequence [Optional [Sequence [Variable "x", Literal "q"]]]`
against `["b"]` even succeeds with that abandoned capture still present.
The claim requires the capture list to be restored to its entry state. -/
theorem c2_capture_leak_eval :
    pmatch 20 (PatternNode.mk NType.SEQUENCE ""
        [PatternNode.mk NType.VARIABLE "x" [] 0,
         PatternNode.mk NType.LITERAL "q" [] 0] 0) ["b"]
      = some (false, { pos := 0, caps := [("x", "b")],
                       errMsg := "Unexpected end of input while matching literal",
                       errPos := 0 })
    ∧ pmatch 20 (PatternNode.mk NType.SEQUENCE ""
        [PatternNode.mk NType.OPTIONAL ""
          [PatternNode.mk NType.SEQUENCE ""
            [PatternNode.mk NType.VARIABLE "x" [] 0,
             PatternNode.mk NType.LITERAL "q" [] 0] 0] 0] 0) ["b"]
      = some (true, { pos := 0, caps := [("x", "b")], errMsg := "", errPos := 0 }) :=
  ⟨rfl, rfl⟩

/-- C9.  When `PatternMatcher::match` returns false the capture list
exposed by `get_captures` need not be empty: a `?` repetition that fails
on a second iteration leaves both iterations' captures in the list, and a
sequence whose literal child fails after a variable child leaves the
variable's capture in the list — a failed match is not atomic with respect
to the matcher's capture state. -/
theorem c9_captures_survive_failure :
    pmatch 20 (PatternNode.mk NType.SEQUENCE ""
        [PatternNode.mk NType.REPETITION "?"
          [PatternNode.mk NType.VARIABLE "x" [] 0] 0] 0) ["a", "b"]
      = some (false, { pos := 0, caps := [("x", "a"), ("x", "b")],
                       errMsg := "Expected zero or one match for \x27?\x27 repetition, got multiple",
                       errPos := 0 })
    ∧ pmatch 20 (PatternNode.mk NType.SEQUENCE ""
        [PatternNode.mk NType.VARIABLE "y" [] 0,
         PatternNode.mk NType.LITERAL "z" [] 0] 0) ["c", "d"]
      = some (false, { pos := 0, caps := [("y", "c")],
                       errMsg := "Expected literal \x27z\x27, got \x27d\x27", errPos := 0 }) :=
  ⟨rfl, rfl⟩

/-- C5, counterexample.  When no rule matches, `Expander::expand` does not
return a structured value: `try_match_rule` throws
`std::runtime_error("No matching macro rule found")` and `expand`'s catch
clause rethrows it, so the exception (modelled as `Except.error`) crosses
the `expand` boundary, here for a one-rule dispatcher whose pattern `"a"`
does not match the input `["b"]`. -/
theorem c5_counterexample :
    expand 30 [⟨"a", fun _ _ => (0 : Nat)⟩] ["b"]
      = some (Except.error "No matching macro rule found") :=
  rfl

/-- C6, counterexample.  A rule whose pattern text `"$"` fails to parse
(the parser records "Empty variable name") is not poisoned: dispatch
silently matches the partial AST `Sequence [Variable ""]` against `["a"]`,
invokes the generator with the capture `("", "a")`, and surfaces no parse
error. -/
theorem c6_counterexample :
    expand 30 [⟨"$", fun _ caps => caps⟩] ["a"] = some (Except.ok [("", "a")])
    ∧ (parse 30 "$").map (fun p => p.2.errMsg) = some "Empty variable name" :=
  ⟨rfl, rfl⟩

/-- C6, amended.  A rule whose pattern fails to parse is matched against
the partial AST instead of surfacing the parse error:
`MacroRule::parse_pattern` discards the parser's error state, so for every
generator and every non-empty input, dispatching the rule with pattern
`"$"` matches the partial AST `Sequence [Variable ""]`, captures the first
token under the empty name and returns the generator's value. -/
theorem c6_unpoisoned_rule_dispatch (α : Type)
    (gen : List String → List (String × String) → α) (x : String) (xs : List String) :
    expand 30 [⟨"$", gen⟩] (x :: xs) = some (Except.ok (gen (x :: xs) [("", x)])) := by
  have hp : rule_parse_pattern 30 "$"
      = some (PatternNode.mk NType.SEQUENCE "" [PatternNode.mk NType.VARIABLE "" [] 0] 0) := rfl
  simp [expand, try_match_rule, rule_attempt, hp, pmatch, match_node, match_children,
    initMState, tokContent]

/-- C3, code evaluated at the failing input.  Matching does not terminate
for every pattern the parser can produce: the pattern text `"()*"` parses
(with no error) to `Sequence [Repetition "*" [Sequence []]]`, whose
repetition child matches zero tokens, and matching that AST against
`["a"]` returns no result at any fuel — the C++ `while` loop in
`match_repetition` never advances `input_pos` and spins forever.  (The
parser itself also diverges on texts containing an unquantifiable `?` or
`,`; see the theorem for C4.) -/
theorem c3_matcher_divergence :
    parse 50 "()*" = some (PatternNode.mk NType.SEQUENCE ""
        [PatternNode.mk NType.REPETITION "*" [PatternNode.mk NType.SEQUENCE "" [] 0] 2] 0,
      { pat := ['(', ')', '*'], pos := 3, errMsg := "", errPos := 0 })
    ∧ ∀ (f : Nat), pmatch f (PatternNode.mk NType.SEQUENCE ""
        [PatternNode.mk NType.REPETITION "*" [PatternNode.mk NType.SEQUENCE "" [] 0] 2] 0)
        ["a"] = none := by
  refine ⟨rfl, ?_⟩
  intro f
  cases f with
  | zero => rfl
  | succ f =>
    cases f with
    | zero => rfl
    | succ g =>
      cases g with
      | zero => rfl
      | succ h =>
        simp [pmatch, match_node, match_children, rep_loop_empty_seq_none, star_toList]

/-- C4, code evaluated at the failing input.  A `?` immediately following
an atom is never parsed as a quantifier: `is_operator` recognises only
`+ - * / =`, so a `?` never reaches the quantifier-disambiguation branch;
it falls through to `parse_literal`, which stops at `?` without consuming
anything, and the parser loops forever — `parse` of the pattern text
`"a?"` returns no result at any fuel. -/
theorem c4_question_quantifier_diverges : ∀ (f : Nat), parse f "a?" = none := by
  intro f
  apply (parse_none_iff f "a?").mpr
  cases f with
  | zero => rfl
  | succ f => exact seq_loop_stuck_aq f [PatternNode.mk NType.LITERAL "a" [] 0]

/-- C10, counterexample.  `PatternParser::parse` does not always return a
value: on the pattern text `"?"` the parser's sequence loop never advances
the cursor, so `parse` returns no result even at fuel `1000` (the amended
theorem proves the same for every fuel), and the claim's "always returns a
Sequence-rooted PatternNode value" fails on inputs where the parser
diverges. -/
theorem c10_counterexample : parse 1000 "?" = none := by
  apply (parse_none_iff 1000 "?").mpr
  exact seq_loop_stuck_q 1000 []

/-- C10, amended.  Whenever `PatternParser::parse` does return, the result
is a `SEQUENCE`-rooted node even when a parse error was recorded; the
error is observable only through the parser's separate error state (the
returned AST carries no error), and on error the AST is a partial parse
that may violate the documented invariants — parsing `"$"` records
"Empty variable name" yet returns `Sequence [Variable ""]`, a variable
node with an empty name, which a caller that ignores `has_error` will
happily match against (it captures the first token under the empty
name). -/
theorem c10_parse_partial_ast :
    (∀ (f : Nat), parse f "?" = none)
    ∧ (∀ (f : Nat) (text : String) (nd : PatternNode) (st : PState),
      parse f text = some (nd, st) → nd.ty = NType.SEQUENCE)
    ∧ parse 30 "$" = some (PatternNode.mk NType.SEQUENCE ""
        [PatternNode.mk NType.VARIABLE "" [] 0] 0,
        { pat := ['$'], pos := 1, errMsg := "Empty variable name", errPos := 1 })
    ∧ pmatch 30 (PatternNode.mk NType.SEQUENCE "" [PatternNode.mk NType.VARIABLE "" [] 0] 0) ["q"]
        = some (true, { pos := 1, caps := [("", "q")], errMsg := "", errPos := 0 }) := by
  refine ⟨?_, ?_, rfl, rfl⟩
  · intro f
    apply (parse_none_iff f "?").mpr
    exact seq_loop_stuck_q f []
  intro f text nd st h
  simp only [parse] at h
  cases hq : parse_seq_loop f
      (skip_whitespace { pat := text.toList, pos := 0, errMsg := "", errPos := 0 }) [] with
  | none => rw [hq] at h; cases h
  | some r =>
    obtain ⟨children, st2⟩ := r
    rw [hq] at h
    simp only [Option.some.injEq, Prod.mk.injEq] at h
    obtain ⟨h1, h2⟩ := h
    subst h1
    rfl

/-- C10, witness for the amended theorem: the root node the parser returns
for the pattern text `"$"` is a `SEQUENCE` node. -/
theorem c10_witness :
    (PatternNode.mk NType.SEQUENCE "" [PatternNode.mk NType.VARIABLE "" [] 0] 0).ty
      = NType.SEQUENCE :=
  c10_parse_partial_ast.2.1 30 "$"
    (PatternNode.mk NType.SEQUENCE "" [PatternNode.mk NType.VARIABLE "" [] 0] 0)
    { pat := ['$'], pos := 1, errMsg := "Empty variable name", errPos := 1 }
    c10_parse_partial_ast.2.2.1

/-- C5, amended.  Parse failures and match failures are returned as
values (the parser and matcher record them in their error fields and
return normally), and the only exception that ever crosses the `expand`
boundary is the "No matching macro rule found" `runtime_error` thrown when
every rule's matcher fails; `try_expand` converts it to an absent value.
Formally: whenever `expand` returns, the result is either a generator
value or exactly that one exception. -/
theorem c5_structured_or_no_match : ∀ (α : Type) (f : Nat) (rules : List (MacRule α))
    (input : List String) (r : Except String α),
    expand f rules input = some r →
    (∃ v, r = Except.ok v) ∨ r = Except.error "No matching macro rule found" := by
  intro α f rules input
  induction rules with
  | nil =>
    intro r h
    simp only [expand, try_match_rule, Option.some.injEq] at h
    right
    exact h.symm
  | cons hd tl ih =>
    intro r h
    simp only [expand, try_match_rule] at h
    cases hra : rule_attempt f hd input with
    | none => rw [hra] at h; cases h
    | some o =>
      cases o with
      | none => rw [hra] at h; exact ih r h
      | some v =>
        rw [hra] at h
        simp only [Option.some.injEq] at h
        left
        exact ⟨v, h.symm⟩

/-- C5, witness: the amended theorem applied to the concrete one-rule
dispatcher of the counterexample, whose `expand` result is the
no-matching-rule exception. -/
theorem c5_witness :
    (∃ v, (Except.error "No matching macro rule found" : Except String Nat) = Except.ok v)
    ∨ (Except.error "No matching macro rule found" : Except String Nat)
        = Except.error "No matching macro rule found" :=
  c5_structured_or_no_match Nat 30 [⟨"a", fun _ _ => 0⟩] ["b"] _ rfl

/-- C7.  `Expander::expand` tries the rules in declaration order: if every
rule before `r` fails to match and `r`'s attempt produces the value `v`,
then `expand` on `pre ++ r :: post` returns `Except.ok v` for every
`post`, so the result is independent of the rules after `r`; moreover a
rule's attempt invokes its generator with exactly the captures of the
matcher run on its parsed pattern
(`Rule::generator::expand(input, matcher.get_captures())`). -/
theorem c7_first_match_dispatch :
    (∀ (α : Type) (f : Nat) (pre : List (MacRule α)) (r : MacRule α) (post : List (MacRule α))
      (input : List String) (v : α),
      (∀ r' ∈ pre, rule_attempt f r' input = some none) →
      rule_attempt f r input = some (some v) →
      expand f (pre ++ r :: post) input = some (Except.ok v))
    ∧ (∀ (α : Type) (f : Nat) (r : MacRule α) (input : List String) (nd : PatternNode)
        (pst : PState) (mst : MState),
        parse f r.pat = some (nd, pst) → pmatch f nd input = some (true, mst) →
        rule_attempt f r input = some (some (r.gen input mst.caps))) := by
  constructor
  · intro α f pre
    induction pre with
    | nil =>
      intro r post input v hpre hr
      simp [expand, try_match_rule, hr]
    | cons p ps ih =>
      intro r post input v hpre hr
      have hp := hpre p (List.mem_cons_self p ps)
      show try_match_rule f (p :: (ps ++ r :: post)) input = some (Except.ok v)
      simp only [try_match_rule, hp]
      exact ih r post input v (fun r' hr' => hpre r' (List.mem_cons_of_mem _ hr')) hr
  · intro α f r input nd pst mst h1 h2
    simp [rule_attempt, rule_parse_pattern, h1, h2]

/-- C7, witness: a three-rule dispatcher on input `["z"]` where the first
rule (`"a"`) fails and the second (`"$v"`) matches; `expand` returns the
second rule's generator value (its captures), independently of the third
rule. -/
theorem c7_witness :
    expand 30 [(⟨"a", fun _ caps => caps⟩ : MacRule (List (String × String))),
               ⟨"$v", fun _ caps => caps⟩, ⟨"$w", fun _ caps => caps⟩] ["z"]
      = some (Except.ok [("v", "z")]) := by
  have h := c7_first_match_dispatch.1 (List (String × String)) 30
      [⟨"a", fun _ caps => caps⟩] ⟨"$v", fun _ caps => caps⟩ [⟨"$w", fun _ caps => caps⟩]
      ["z"] [("v", "z")]
      (by
        intro r' hr'
        rw [List.mem_singleton] at hr'
        subst hr'
        rfl)
      rfl
  exact h

/-- C8.  `match_repetition` repeats its child greedily until it fails; if
the greedy loop returns after `k` iterations then `*` always succeeds,
`+` succeeds iff `k ≥ 1`, and `?` succeeds iff `k ≤ 1` (failing when a
second iteration succeeded); and `$x*` run on any token sequence succeeds,
consuming the whole sequence and capturing every token under `x`. -/
theorem c8_repetition_semantics :
    (∀ (f : Nat) (child : PatternNode) (toks : List String) (st : MState) (k : Nat) (st' : MState),
      rep_loop f child toks st 0 = some (k, st') →
        match_node (f + 1) (PatternNode.mk NType.REPETITION "*" [child] 0) toks st
          = some (true, st')
        ∧ (match_node (f + 1) (PatternNode.mk NType.REPETITION "+" [child] 0) toks st).map
            Prod.fst = some (decide (1 ≤ k))
        ∧ (match_node (f + 1) (PatternNode.mk NType.REPETITION "?" [child] 0) toks st).map
            Prod.fst = some (decide (k ≤ 1)))
    ∧ (∀ (x : String) (toks : List String),
        pmatch (toks.length + 4) (PatternNode.mk NType.SEQUENCE ""
            [PatternNode.mk NType.REPETITION "*" [PatternNode.mk NType.VARIABLE x [] 0] 0] 0) toks
          = some (true, { pos := toks.length, caps := toks.map (fun t => (x, t)),
                          errMsg := "", errPos := 0 })) := by
  constructor
  · intro f child toks st k st' h
    have e1 : (('*' : Char) = '*') = True := by simp
    have e2 : (('+' : Char) = '*') = False := by decide
    have e3 : (('+' : Char) = '+') = True := by simp
    have e4 : (('?' : Char) = '*') = False := by decide
    have e5 : (('?' : Char) = '+') = False := by decide
    have e6 : (('?' : Char) = '?') = True := by simp
    refine ⟨?_, ?_, ?_⟩
    · simp [match_node, h, star_toList, e1]
    · simp only [match_node, h, plus_toList, List.headD_cons, e2, e3, if_false, if_true,
        ite_false, ite_true]
      rcases k with _ | k
      · simp
      · simp
    · simp only [match_node, h, quest_toList, List.headD_cons, e4, e5, e6, if_false, if_true,
        ite_false, ite_true]
      rcases k with _ | k
      · simp
      · rcases k with _ | k
        · simp
        · simp
  · intro x toks
    have hrl := rep_loop_var x toks toks.length 0 initMState (by simp [initMState])
    show match_node (toks.length + 4) (PatternNode.mk NType.SEQUENCE ""
        [PatternNode.mk NType.REPETITION "*" [PatternNode.mk NType.VARIABLE x [] 0] 0] 0)
        toks initMState = _
    rw [show toks.length + 4 = (toks.length + 3) + 1 from rfl]
    simp only [match_node]
    rw [show toks.length + 3 = (toks.length + 2) + 1 from rfl]
    simp only [match_children]
    rw [show toks.length + 2 = (toks.length + 1) + 1 from rfl]
    simp only [match_node, star_toList, List.headD_cons]
    rw [hrl]
    simp [initMState]

/-- C8, witness: the repetition theorem applied to the concrete child
`Literal "a"` on tokens `["a","a"]`, where the greedy loop makes exactly
two iterations: `*` and `+` succeed, `?` fails. -/
theorem c8_witness :
    match_node 11 (PatternNode.mk NType.REPETITION "*" [PatternNode.mk NType.LITERAL "a" [] 0] 0)
        ["a", "a"] initMState = some (true, { pos := 2, caps := [], errMsg := "", errPos := 0 })
    ∧ (match_node 11 (PatternNode.mk NType.REPETITION "+" [PatternNode.mk NType.LITERAL "a" [] 0] 0)
        ["a", "a"] initMState).map Prod.fst = some true
    ∧ (match_node 11 (PatternNode.mk NType.REPETITION "?" [PatternNode.mk NType.LITERAL "a" [] 0] 0)
        ["a", "a"] initMState).map Prod.fst = some false := by
  have h := c8_repetition_semantics.1 10 (PatternNode.mk NType.LITERAL "a" [] 0) ["a", "a"]
      initMState 2 { pos := 2, caps := [], errMsg := "", errPos := 0 } rfl
  exact ⟨h.1, h.2.1, h.2.2⟩

